import Mathlib

/-!
ESP32 web server (`main/hello_esp32.c`): WiFi event handler, LED endpoint,
status JSON and restart endpoint.

A shallow embedding of the C source.  Module-level C variables become fields
of explicit state records, calls into ESP-IDF / FreeRTOS become entries of an
effect trace, and C `char` arrays become `List Char` (a C `char` with code `c`
is the Lean `Char` with code `c`; the terminator is `Char.ofNat 0`).
-/

namespace Esp32Server

/-! ## Effects -/

/-- Calls into the platform made by the code, in program order. -/
inductive Effect where
  | esp_wifi_connect
  | log (msg : String)
  | gpio_config (pin : Nat)
  | gpio_set_level (pin : Nat) (level : Nat)
  | httpd_req_recv (buf_len : Nat)
  | httpd_resp_send_408
  | httpd_resp_set_type (type : String)
  | httpd_resp_send (body : List Char) (len : Nat)
  | httpd_resp_sendstr (body : String)
  | vTaskDelay (ticks : Nat)
  | esp_restart
  deriving DecidableEq, Repr

/-- Number of `esp_wifi_connect()` calls in a trace. -/
def connectAttempts (tr : List Effect) : Nat :=
  tr.count Effect.esp_wifi_connect

/-! ## WiFi connection manager -/

/-- `#define WIFI_CONNECTED_BIT BIT0`. -/
def WIFI_CONNECTED_BIT : Nat := 1

/-- `#define WIFI_FAIL_BIT BIT1`. -/
def WIFI_FAIL_BIT : Nat := 2

/-- `#define MAX_RETRY 5`. -/
def MAX_RETRY : Int := 5

/-- The event bases the handler compares `event_base` against (`esp_event_base_t`
is compared by pointer); `other` stands for any further base. -/
inductive EventBase where
  | WIFI_EVENT
  | IP_EVENT
  | other (tag : Nat)
  deriving DecidableEq, Repr

/-- `WIFI_EVENT_STA_START` of ESP-IDF's `wifi_event_t` (third enumerator). -/
def WIFI_EVENT_STA_START : Int := 2

/-- `WIFI_EVENT_STA_DISCONNECTED` of ESP-IDF's `wifi_event_t` (sixth enumerator). -/
def WIFI_EVENT_STA_DISCONNECTED : Int := 5

/-- `IP_EVENT_STA_GOT_IP` of ESP-IDF's `ip_event_t` (first enumerator). -/
def IP_EVENT_STA_GOT_IP : Int := 0

/-- The module-level state touched by `wifi_event_handler`:
`static int s_retry_num` and the bits of `s_wifi_event_group`. -/
structure WifiState where
  s_retry_num : Int
  bits : Nat
  deriving DecidableEq, Repr

/-- `xEventGroupSetBits(group, mask)`: the bits of `mask` are or-ed in. -/
def xEventGroupSetBits (bits mask : Nat) : Nat := bits ||| mask

/-- The test `bits & mask` used by `wifi_init_sta` on the event group. -/
def flagRaised (bits mask : Nat) : Bool := (bits &&& mask) != 0

/-- An event delivered to the handler: `(event_base, event_id)`. -/
structure Event where
  event_base : EventBase
  event_id : Int
  deriving DecidableEq, Repr

/-- `wifi_event_handler(arg, event_base, event_id, event_data)`: new state and
the calls it made (log calls carry the message without its arguments). -/
def wifi_event_handler (st : WifiState) (ev : Event) : WifiState × List Effect :=
  if ev.event_base = EventBase.WIFI_EVENT ∧ ev.event_id = WIFI_EVENT_STA_START then
    (st, [Effect.esp_wifi_connect])
  else if ev.event_base = EventBase.WIFI_EVENT ∧ ev.event_id = WIFI_EVENT_STA_DISCONNECTED then
    if st.s_retry_num < MAX_RETRY then
      ({ st with s_retry_num := st.s_retry_num + 1 },
        [Effect.esp_wifi_connect,
         Effect.log "Reintentando conexión WiFi...",
         Effect.log "Fallo al conectar al AP"])
    else
      ({ st with bits := xEventGroupSetBits st.bits WIFI_FAIL_BIT },
        [Effect.log "Fallo al conectar al AP"])
  else if ev.event_base = EventBase.IP_EVENT ∧ ev.event_id = IP_EVENT_STA_GOT_IP then
    ({ s_retry_num := 0, bits := xEventGroupSetBits st.bits WIFI_CONNECTED_BIT },
      [Effect.log "IP asignada"])
  else
    (st, [])

/-- The three events the handler reacts to. -/
def evStaStart : Event := ⟨EventBase.WIFI_EVENT, WIFI_EVENT_STA_START⟩

/-- Event `(WIFI_EVENT, WIFI_EVENT_STA_DISCONNECTED)`. -/
def evDisconnected : Event := ⟨EventBase.WIFI_EVENT, WIFI_EVENT_STA_DISCONNECTED⟩

/-- Event `(IP_EVENT, IP_EVENT_STA_GOT_IP)`. -/
def evGotIp : Event := ⟨EventBase.IP_EVENT, IP_EVENT_STA_GOT_IP⟩

/-- The handler run over a sequence of events, traces concatenated. -/
def wifi_run (st : WifiState) : List Event → WifiState × List Effect
  | [] => (st, [])
  | ev :: rest =>
    let r := wifi_event_handler st ev
    let q := wifi_run r.1 rest
    (q.1, r.2 ++ q.2)

/-- State at boot: `s_retry_num = 0`, freshly created event group. -/
def wifiBoot : WifiState := { s_retry_num := 0, bits := 0 }

/-! ## C strings -/

/-- The string terminator. -/
def NUL : Char := Char.ofNat 0

/-- The C string stored at the start of a `char` array: the chars before the
first terminator.  Every array it is applied to below ends in a terminator, so
no char beyond the written part of an array is read. -/
def cstr (buf : List Char) : List Char := buf.takeWhile (fun c => c != NUL)

/-- `strlen(buf)`. -/
def strlen (buf : List Char) : Nat := (cstr buf).length

/-- Whether `needle` can be read at the very start of `hay`. -/
def startsWith : List Char → List Char → Bool
  | _, [] => true
  | [], _ :: _ => false
  | h :: hs, n :: ns => h == n && startsWith hs ns

/-- `strstr(haystack, needle)` on C strings given by their chars: offset of the
first occurrence of `needle`, `none` for the C result `NULL`. -/
def strstr : List Char → List Char → Option Nat
  | [], needle => if startsWith [] needle then some 0 else none
  | h :: hs, needle =>
    if startsWith (h :: hs) needle then some 0
    else (strstr hs needle).map (fun i => i + 1)

/-- `snprintf(buf, size, ...)` with `size > 0`, where the complete formatted
text is `text`: the array receives the first `size - 1` chars and a terminator. -/
def snprintf (size : Nat) (text : List Char) : List Char :=
  text.take (size - 1) ++ [NUL]

/-- Conversion `%lu` / `%u`, and `%d` of a non-negative value: decimal digits. -/
def fmt_u (n : Nat) : List Char := (Nat.repr n).data

/-- Conversion `%d`. -/
def fmt_d (n : Int) : List Char :=
  if n < 0 then '-' :: fmt_u n.natAbs else fmt_u n.toNat

/-- Left padding with `'0'` up to a minimum width. -/
def zeroPad (width : Nat) (digits : List Char) : List Char :=
  List.replicate (width - digits.length) '0' ++ digits

/-- Conversion `%02d`: minimum field width 2, padded with zeros after the sign. -/
def fmt_02d (n : Int) : List Char :=
  if n < 0 then '-' :: zeroPad 1 (fmt_u n.natAbs) else zeroPad 2 (fmt_u n.toNat)

/-- Value of a C `int` (32 bits, two's complement) holding the integer `x`. -/
def toInt32 (x : Int) : Int := (x + 2 ^ 31) % 2 ^ 32 - 2 ^ 31

/-! ## LED controller -/

/-- `#define LED_PIN GPIO_NUM_21`. -/
def LED_PIN : Nat := 21

/-- The `gpio_config_t` fields set by `led_init`. -/
structure GpioConfig where
  intr_enabled : Bool
  mode_output : Bool
  pin_bit_mask : Nat
  pull_down_en : Bool
  pull_up_en : Bool
  deriving DecidableEq, Repr

/-- `static bool led_state` together with the output pin: its configuration
(if any) and the level last driven on `LED_PIN`. -/
structure LedWorld where
  led_state : Bool
  pin_level : Nat
  pin_config : Option GpioConfig
  deriving DecidableEq, Repr

/-- `led_init()`. -/
def led_init (_w : LedWorld) : LedWorld × List Effect :=
  ({ led_state := false,
     pin_level := 0,
     pin_config := some
       { intr_enabled := false, mode_output := true, pin_bit_mask := 1 <<< LED_PIN,
         pull_down_en := false, pull_up_en := false } },
   [Effect.gpio_config LED_PIN, Effect.gpio_set_level LED_PIN 0])

/-- `led_set_state(state)`. -/
def led_set_state (w : LedWorld) (state : Bool) : LedWorld × List Effect :=
  ({ w with led_state := state, pin_level := if state then 1 else 0 },
   [Effect.gpio_set_level LED_PIN (if state then 1 else 0),
    Effect.log (if state then "LED ENCENDIDO" else "LED APAGADO")])

/-! ## HTTP handlers -/

/-- `ESP_OK`. -/
def ESP_OK : Int := 0

/-- `ESP_FAIL`. -/
def ESP_FAIL : Int := -1

/-- `HTTPD_SOCK_ERR_TIMEOUT` of `esp_http_server.h`. -/
def HTTPD_SOCK_ERR_TIMEOUT : Int := -3

/-- Size of `char content[100]` in `led_handler`. -/
def CONTENT_SIZE : Nat := 100

/-- Size of `char response[50]` in `led_handler`. -/
def RESPONSE_SIZE : Nat := 50

/-- What a call `httpd_req_recv(req, buf, buf_len)` did: either it returned
`ret <= 0` and stored nothing, or it stored `bytes` at the start of `buf` and
returned their number (between 1 and `buf_len`). -/
inductive Recv where
  | error (ret : Int)
  | data (bytes : List Char)
  deriving DecidableEq, Repr

/-- The `int` returned by `httpd_req_recv`. -/
def Recv.ret : Recv → Int
  | Recv.error r => r
  | Recv.data bytes => (bytes.length : Int)

/-- The chars stored by `httpd_req_recv`. -/
def Recv.stored : Recv → List Char
  | Recv.error _ => []
  | Recv.data bytes => bytes

/-- First needle of the truth test, `"state":true` with its quotes. -/
def needleTrue : List Char := "\"state\":true".toList

/-- Second needle of the truth test, `"state": true` with one space. -/
def needleTrueSpace : List Char := "\"state\": true".toList

/-- The `new_state` computed by `led_handler` from the terminated `content`. -/
def led_new_state (content : List Char) : Bool :=
  (strstr (cstr content) needleTrue).isSome || (strstr (cstr content) needleTrueSpace).isSome

/-- Formatted text of `snprintf(response, ..., "{\"status\":\"ok\",\"led_state\":%s}", ...)`. -/
def led_response_text (new_state : Bool) : List Char :=
  "\x7b\"status\":\"ok\",\"led_state\":".toList
    ++ (if new_state then "true" else "false").toList ++ "\x7d".toList

/-- `led_handler(req)`, given the outcome `r` of its `httpd_req_recv` call.
Result: LED state afterwards, calls made, and the `esp_err_t` returned.
After the store `content[ret] = 0` the array starts with the received bytes
followed by the terminator, and nothing behind the terminator is read.
`none` stands for undefined behaviour: the store `content[ret] = 0` with
`ret` outside `char content[100]`. -/
def led_handler (w : LedWorld) (r : Recv) : Option (LedWorld × List Effect × Int) :=
  let ret := r.ret
  if ret ≤ 0 then
    if ret = HTTPD_SOCK_ERR_TIMEOUT then
      some (w, [Effect.httpd_req_recv CONTENT_SIZE, Effect.httpd_resp_send_408], ESP_FAIL)
    else
      some (w, [Effect.httpd_req_recv CONTENT_SIZE], ESP_FAIL)
  else if ret.toNat < CONTENT_SIZE then
    let content := r.stored.take ret.toNat ++ [NUL]
    let new_state := led_new_state content
    let s := led_set_state w new_state
    let response := snprintf RESPONSE_SIZE (led_response_text new_state)
    some (s.1,
      [Effect.httpd_req_recv CONTENT_SIZE] ++ s.2 ++
        [Effect.httpd_resp_set_type "application/json",
         Effect.httpd_resp_send (response.take (strlen response)) (strlen response)],
      ESP_OK)
  else
    none

/-- The part of `led_handler` that follows the store `content[ret] = 0`, from
`bool new_state = false;` to `return ESP_OK;`, as a function of the text that
`strstr` finds at `content`: the received bytes and the terminator stored
behind them.  Result: LED state afterwards, calls made, value returned. -/
def led_handler_tail (w : LedWorld) (content : List Char) : LedWorld × List Effect × Int :=
  let new_state := led_new_state content
  let s := led_set_state w new_state
  let response := snprintf RESPONSE_SIZE (led_response_text new_state)
  (s.1,
    s.2 ++
      [Effect.httpd_resp_set_type "application/json",
       Effect.httpd_resp_send (response.take (strlen response)) (strlen response)],
    ESP_OK)

/-- `restart_handler(req)` for a tick period of `portTICK_PERIOD_MS`
milliseconds (a FreeRTOS configuration macro): the calls made, and the value
returned, `none` because `esp_restart()` does not return. -/
def restart_handler (portTICK_PERIOD_MS : Nat) : List Effect × Option Int :=
  ([Effect.httpd_resp_sendstr "\x7b\"status\":\"restarting\"\x7d",
    Effect.vTaskDelay (1000 / portTICK_PERIOD_MS),
    Effect.esp_restart],
   none)

/-! ## Status JSON -/

/-- The values read by `get_system_info_json` from the platform.  The two
`%.2f` conversions are floating point; their printed text is taken as given. -/
structure DeviceSnapshot where
  cores : Nat
  revision : Nat
  cpu_freq_mhz : Nat
  temperature_text : List Char
  ssid : List Char
  rssi : Int
  ip : Nat × Nat × Nat × Nat
  gw : Nat × Nat × Nat × Nat
  netmask : Nat × Nat × Nat × Nat
  free_heap : Nat
  min_free_heap : Nat
  free_heap_mb_text : List Char
  uptime_us : Int
  deriving DecidableEq, Repr

/-- The ranges of the C types behind a snapshot: `uint8_t cores`,
`uint16_t revision`, `uint32_t` frequency and heap sizes, `uint8_t ssid[33]`
holding a terminated string, `int8_t rssi`, address octets, `int64_t` time,
and `%.2f` texts free of zero bytes and no longer than that of the largest
`float` (43 chars). -/
def DeviceSnapshot.WellTyped (d : DeviceSnapshot) : Prop :=
  d.cores < 2 ^ 8 ∧ d.revision < 2 ^ 16 ∧ d.cpu_freq_mhz < 2 ^ 32 ∧
  (d.temperature_text.length ≤ 43 ∧ NUL ∉ d.temperature_text) ∧
  (cstr d.ssid).length ≤ 32 ∧
  (-128 ≤ d.rssi ∧ d.rssi ≤ 127) ∧
  (d.ip.1 < 256 ∧ d.ip.2.1 < 256 ∧ d.ip.2.2.1 < 256 ∧ d.ip.2.2.2 < 256) ∧
  (d.gw.1 < 256 ∧ d.gw.2.1 < 256 ∧ d.gw.2.2.1 < 256 ∧ d.gw.2.2.2 < 256) ∧
  (d.netmask.1 < 256 ∧ d.netmask.2.1 < 256 ∧ d.netmask.2.2.1 < 256 ∧ d.netmask.2.2.2 < 256) ∧
  d.free_heap < 2 ^ 32 ∧ d.min_free_heap < 2 ^ 32 ∧
  (d.free_heap_mb_text.length ≤ 43 ∧ NUL ∉ d.free_heap_mb_text) ∧
  (-(2 ^ 63) ≤ d.uptime_us ∧ d.uptime_us < 2 ^ 63)

/-- Decidability of the range conditions, so that they can be evaluated. -/
instance (d : DeviceSnapshot) : Decidable d.WellTyped := by
  unfold DeviceSnapshot.WellTyped
  infer_instance

/-- `IPSTR` with `IP2STR(&addr)`: `"%d.%d.%d.%d"` of the four octets. -/
def fmt_ip (a : Nat × Nat × Nat × Nat) : List Char :=
  fmt_d a.1 ++ ".".toList ++ fmt_d a.2.1 ++ ".".toList ++ fmt_d a.2.2.1 ++ ".".toList
    ++ fmt_d a.2.2.2

/-- `int uptime_seconds = (int)(uptime_us / 1000000)`. -/
def uptime_seconds_of (uptime_us : Int) : Int := toInt32 (uptime_us.tdiv 1000000)

/-- The `"%02d:%02d:%02d"` text of `hours`, `minutes`, `seconds`, computed from
`uptime_seconds` as in `get_system_info_json`. -/
def uptime_formatted (uptime_seconds : Int) : List Char :=
  let hours := uptime_seconds.tdiv 3600
  let minutes := (uptime_seconds.tmod 3600).tdiv 60
  let seconds := uptime_seconds.tmod 60
  fmt_02d hours ++ ":".toList ++ fmt_02d minutes ++ ":".toList ++ fmt_02d seconds

/-- The formatted text up to and including the `"uptime"` object. -/
def json_head (d : DeviceSnapshot) : List Char :=
  "\x7b\n  \"chip\": \x7b\n    \"model\": \"ESP32\",\n    \"cores\": ".toList
    ++ fmt_d d.cores
    ++ ",\n    \"revision\": ".toList ++ fmt_d d.revision
    ++ ",\n    \"frequency\": ".toList ++ fmt_u d.cpu_freq_mhz
    ++ "\n  \x7d,\n  \"temperature\": ".toList ++ d.temperature_text
    ++ ",\n  \"wifi\": \x7b\n    \"ssid\": \"".toList ++ cstr d.ssid
    ++ "\",\n    \"rssi\": ".toList ++ fmt_d d.rssi
    ++ ",\n    \"ip\": \"".toList ++ fmt_ip d.ip
    ++ "\",\n    \"gateway\": \"".toList ++ fmt_ip d.gw
    ++ "\",\n    \"netmask\": \"".toList ++ fmt_ip d.netmask
    ++ "\"\n  \x7d,\n  \"memory\": \x7b\n    \"free_heap\": ".toList ++ fmt_u d.free_heap
    ++ ",\n    \"min_free_heap\": ".toList ++ fmt_u d.min_free_heap
    ++ ",\n    \"free_heap_mb\": ".toList ++ d.free_heap_mb_text
    ++ "\n  \x7d,\n  \"uptime\": \x7b\n    \"seconds\": ".toList
    ++ fmt_d (uptime_seconds_of d.uptime_us)
    ++ ",\n    \"formatted\": \"".toList ++ uptime_formatted (uptime_seconds_of d.uptime_us)
    ++ "\"\n  \x7d,\n".toList

/-- The formatted text of the closing `"led"` object. -/
def json_led (led_state : Bool) : List Char :=
  "  \"led\": \x7b\n    \"state\": ".toList
    ++ (if led_state then "true" else "false").toList
    ++ "\n  \x7d\n\x7d".toList

/-- `get_system_info_json(buffer, buffer_size)`: the contents stored in
`buffer`, for the given platform values and the current `led_state`. -/
def get_system_info_json (d : DeviceSnapshot) (w : LedWorld) (buffer_size : Nat) : List Char :=
  snprintf buffer_size (json_head d ++ json_led w.led_state)

/-- Size of `char json_buffer[1024]` in `data_handler`. -/
def JSON_BUFFER_SIZE : Nat := 1024

/-- `data_handler(req)`: the calls made and the value returned. -/
def data_handler (d : DeviceSnapshot) (w : LedWorld) : List Effect × Int :=
  let json_buffer := get_system_info_json d w JSON_BUFFER_SIZE
  ([Effect.httpd_resp_set_type "application/json",
    Effect.httpd_resp_send (json_buffer.take (strlen json_buffer)) (strlen json_buffer)],
   ESP_OK)

/-- The body passed to `httpd_resp_send` in a trace, if there is such a call. -/
def sentBody : List Effect → Option (List Char)
  | [] => none
  | Effect.httpd_resp_send body _ :: _ => some body
  | _ :: rest => sentBody rest

/-- A text with blanks and line breaks removed. -/
def compact (text : List Char) : List Char :=
  text.filter (fun c => c != Char.ofNat 32 && c != Char.ofNat 10)

/-- A snapshot with plausible values, used to evaluate the definitions. -/
def sampleSnapshot : DeviceSnapshot :=
  { cores := 2, revision := 301, cpu_freq_mhz := 240,
    temperature_text := "47.25".toList,
    ssid := "home".toList ++ [NUL],
    rssi := -61,
    ip := (192, 168, 1, 50), gw := (192, 168, 1, 1), netmask := (255, 255, 255, 0),
    free_heap := 215348, min_free_heap := 201120,
    free_heap_mb_text := "0.21".toList,
    uptime_us := 3661000000 }

/-! ## The uptime text in the specification's words -/

/-- A number below 100 written as a zero-padded two-digit decimal: tens digit,
then units digit. -/
def twoDigits (n : Nat) : List Char := [Nat.digitChar (n / 10), Nat.digitChar (n % 10)]

/-- The text `HH:MM:SS` as the specification words it: `HH = s / 3600`,
`MM = (s mod 3600) / 60`, `SS = s mod 60`, each as two digits. -/
def specUptimeFormat (s : Nat) : List Char :=
  twoDigits (s / 3600) ++ ":".toList ++ twoDigits (s % 3600 / 60) ++ ":".toList
    ++ twoDigits (s % 60)

/-! ## Concrete inputs used to evaluate the handlers -/

/-- LED off, pin low, pin not yet configured. -/
def ledOff : LedWorld := { led_state := false, pin_level := 0, pin_config := none }

/-- LED on, pin high. -/
def ledOn : LedWorld := { led_state := true, pin_level := 1, pin_config := none }

/-- Request body `{"state":true}`. -/
def bodyTrue : List Char := "\x7b\"state\":true\x7d".toList

/-- Request body `{"state": true}` (one space). -/
def bodyTrueSpace : List Char := "\x7b\"state\": true\x7d".toList

/-- Request body `{"state":false}`. -/
def bodyFalse : List Char := "\x7b\"state\":false\x7d".toList

/-- A request body whose first byte is zero and whose remaining bytes are
`{"state":true}`. -/
def bodyNulThenTrue : List Char := NUL :: bodyTrue

/-- A request body of exactly 100 bytes: `{"state":true` followed by 86 blanks
and the closing brace. -/
def body100 : List Char :=
  "\x7b\"state\":true".toList ++ List.replicate 86 (Char.ofNat 32) ++ "\x7d".toList

/-- Calls that send (part of) an HTTP response. -/
def isResponse : Effect → Bool
  | Effect.httpd_resp_send_408 => true
  | Effect.httpd_resp_send _ _ => true
  | Effect.httpd_resp_sendstr _ => true
  | _ => false

/-- A request body of exactly 100 bytes, all of them the letter `a`. -/
def bodyFull : List Char := List.replicate 100 (Char.ofNat 97)

/-- The `buf_len` argument of the first `httpd_req_recv` call in a trace: the
number of bytes the handler asked the server for. -/
def requestedLen : List Effect → Option Nat
  | [] => none
  | Effect.httpd_req_recv buf_len :: _ => some buf_len
  | _ :: rest => requestedLen rest

/-! ## Sequences of calls -/

/-- The LED state after a sequence of `led_set_state` calls, in order. -/
def led_run (w : LedWorld) : List Bool → LedWorld
  | [] => w
  | b :: rest => led_run (led_set_state w b).1 rest

/-- The events of a boot in which every connection attempt fails: station
start, then `k` disconnects. -/
def bootEvents (k : Nat) : List Event := evStaStart :: List.replicate k evDisconnected

/-! ## Theorems: event-group bits -/

theorem flagRaised_two_pow (b i : Nat) : flagRaised b (2 ^ i) = b.testBit i := by
  unfold flagRaised
  rw [Nat.and_two_pow]
  cases h : b.testBit i <;> simp

theorem flagRaised_connected (b : Nat) : flagRaised b WIFI_CONNECTED_BIT = b.testBit 0 :=
  flagRaised_two_pow b 0

theorem flagRaised_fail (b : Nat) : flagRaised b WIFI_FAIL_BIT = b.testBit 1 :=
  flagRaised_two_pow b 1

theorem testBit_connected_bit (i : Nat) : Nat.testBit 1 i = decide (0 = i) := by
  have h := @Nat.testBit_two_pow 0 i
  simpa using h

theorem testBit_fail_bit (i : Nat) : Nat.testBit 2 i = decide (1 = i) := by
  have h := @Nat.testBit_two_pow 1 i
  simpa using h

theorem setBits_idem (b m : Nat) :
    xEventGroupSetBits (xEventGroupSetBits b m) m = xEventGroupSetBits b m := by
  unfold xEventGroupSetBits
  rw [Nat.or_assoc, Nat.or_self]

/-! ## Theorems: WiFi connection manager -/

theorem handler_disconnected_lt (st : WifiState) (h : st.s_retry_num < MAX_RETRY) :
    wifi_event_handler st evDisconnected =
      ({ st with s_retry_num := st.s_retry_num + 1 },
        [Effect.esp_wifi_connect,
         Effect.log "Reintentando conexión WiFi...",
         Effect.log "Fallo al conectar al AP"]) := by
  simp [wifi_event_handler, evDisconnected, WIFI_EVENT_STA_START,
    WIFI_EVENT_STA_DISCONNECTED, h]

theorem handler_disconnected_ge (st : WifiState) (h : MAX_RETRY ≤ st.s_retry_num) :
    wifi_event_handler st evDisconnected =
      ({ st with bits := xEventGroupSetBits st.bits WIFI_FAIL_BIT },
        [Effect.log "Fallo al conectar al AP"]) := by
  have h2 : ¬ st.s_retry_num < MAX_RETRY := not_lt.mpr h
  simp [wifi_event_handler, evDisconnected, WIFI_EVENT_STA_START,
    WIFI_EVENT_STA_DISCONNECTED, h2]

theorem handler_got_ip (st : WifiState) :
    wifi_event_handler st evGotIp =
      ({ s_retry_num := 0, bits := xEventGroupSetBits st.bits WIFI_CONNECTED_BIT },
        [Effect.log "IP asignada"]) := by
  simp [wifi_event_handler, evGotIp, IP_EVENT_STA_GOT_IP]

/-- C1: with budget left (retry count `n`, `0 ≤ n ≤ 4`) a
`WIFI_EVENT_STA_DISCONNECTED` event issues exactly one connect attempt, leaves
the counter at `n + 1` and leaves the event bits as they were, so it raises
neither the fail flag nor the connected flag. -/
theorem C1_disconnect_with_budget (n : Int) (bits : Nat) (h0 : 0 ≤ n) (h4 : n ≤ 4) :
    connectAttempts (wifi_event_handler { s_retry_num := n, bits := bits } evDisconnected).2 = 1 ∧
    (wifi_event_handler { s_retry_num := n, bits := bits } evDisconnected).1.s_retry_num = n + 1 ∧
    (wifi_event_handler { s_retry_num := n, bits := bits } evDisconnected).1.bits = bits ∧
    flagRaised (wifi_event_handler { s_retry_num := n, bits := bits } evDisconnected).1.bits
      WIFI_FAIL_BIT = flagRaised bits WIFI_FAIL_BIT ∧
    flagRaised (wifi_event_handler { s_retry_num := n, bits := bits } evDisconnected).1.bits
      WIFI_CONNECTED_BIT = flagRaised bits WIFI_CONNECTED_BIT := by
  have hlt : (WifiState.mk n bits).s_retry_num < MAX_RETRY := by
    show n < 5
    omega
  rw [handler_disconnected_lt _ hlt]
  simp [connectAttempts]

/-- C1 at retry count 4 from the boot flags: the handler reconnects once,
the counter becomes 5 and no flag is raised. -/
theorem C1_disconnect_with_budget_witness :
    connectAttempts (wifi_event_handler { s_retry_num := 4, bits := 0 } evDisconnected).2 = 1 ∧
    (wifi_event_handler { s_retry_num := 4, bits := 0 } evDisconnected).1.s_retry_num = 5 ∧
    flagRaised (wifi_event_handler { s_retry_num := 4, bits := 0 } evDisconnected).1.bits
      WIFI_FAIL_BIT = false ∧
    flagRaised (wifi_event_handler { s_retry_num := 4, bits := 0 } evDisconnected).1.bits
      WIFI_CONNECTED_BIT = false := by
  have h := C1_disconnect_with_budget 4 0 (by decide) (by decide)
  exact ⟨h.1, h.2.1, h.2.2.2.1.trans (by decide), h.2.2.2.2.trans (by decide)⟩

/-- C2: with the budget exhausted (retry count `n ≥ 5`) a
`WIFI_EVENT_STA_DISCONNECTED` event raises the fail flag, issues no connect
attempt and leaves the counter at `n` (and the connected flag as it was); a
further such event in the resulting state changes neither counter nor flags
and again issues no connect attempt. -/
theorem C2_disconnect_budget_exhausted (n : Int) (bits : Nat) (h5 : 5 ≤ n) :
    flagRaised (wifi_event_handler { s_retry_num := n, bits := bits } evDisconnected).1.bits
      WIFI_FAIL_BIT = true ∧
    flagRaised (wifi_event_handler { s_retry_num := n, bits := bits } evDisconnected).1.bits
      WIFI_CONNECTED_BIT = flagRaised bits WIFI_CONNECTED_BIT ∧
    connectAttempts (wifi_event_handler { s_retry_num := n, bits := bits } evDisconnected).2 = 0 ∧
    (wifi_event_handler { s_retry_num := n, bits := bits } evDisconnected).1.s_retry_num = n ∧
    (wifi_event_handler
        (wifi_event_handler { s_retry_num := n, bits := bits } evDisconnected).1
        evDisconnected).1
      = (wifi_event_handler { s_retry_num := n, bits := bits } evDisconnected).1 ∧
    connectAttempts (wifi_event_handler
        (wifi_event_handler { s_retry_num := n, bits := bits } evDisconnected).1
        evDisconnected).2 = 0 := by
  have hge : MAX_RETRY ≤ (WifiState.mk n bits).s_retry_num := h5
  rw [handler_disconnected_ge _ hge]
  have hge2 : MAX_RETRY ≤
      (WifiState.mk n (xEventGroupSetBits bits WIFI_FAIL_BIT)).s_retry_num := h5
  rw [handler_disconnected_ge _ hge2]
  refine ⟨?_, ?_, ?_, ?_, ?_, ?_⟩
  · rw [flagRaised_fail]
    simp [xEventGroupSetBits, WIFI_FAIL_BIT, Nat.testBit_or, testBit_fail_bit]
  · rw [flagRaised_connected, flagRaised_connected]
    simp [xEventGroupSetBits, WIFI_FAIL_BIT, Nat.testBit_or, testBit_fail_bit]
  · simp [connectAttempts]
  · rfl
  · simp [setBits_idem]
  · simp [connectAttempts]

/-- C2 at retry count 5 from the boot flags: the state becomes
`s_retry_num = 5` with only the fail bit set, and stays there. -/
theorem C2_disconnect_budget_exhausted_witness :
    flagRaised (wifi_event_handler { s_retry_num := 5, bits := 0 } evDisconnected).1.bits
      WIFI_FAIL_BIT = true ∧
    (wifi_event_handler { s_retry_num := 5, bits := 0 } evDisconnected).1.s_retry_num = 5 ∧
    (wifi_event_handler
        (wifi_event_handler { s_retry_num := 5, bits := 0 } evDisconnected).1
        evDisconnected).1
      = (wifi_event_handler { s_retry_num := 5, bits := 0 } evDisconnected).1 := by
  have h := C2_disconnect_budget_exhausted 5 0 (by decide)
  exact ⟨h.1, h.2.2.2.1, h.2.2.2.2.1⟩

/-- C3: for every prior retry count and every prior event bits an
`IP_EVENT_STA_GOT_IP` event leaves the counter at 0, the connected flag
raised and the fail flag as it was, and issues no connect attempt. -/
theorem C3_got_ip (n : Int) (bits : Nat) :
    (wifi_event_handler { s_retry_num := n, bits := bits } evGotIp).1.s_retry_num = 0 ∧
    flagRaised (wifi_event_handler { s_retry_num := n, bits := bits } evGotIp).1.bits
      WIFI_CONNECTED_BIT = true ∧
    connectAttempts (wifi_event_handler { s_retry_num := n, bits := bits } evGotIp).2 = 0 ∧
    flagRaised (wifi_event_handler { s_retry_num := n, bits := bits } evGotIp).1.bits
      WIFI_FAIL_BIT = flagRaised bits WIFI_FAIL_BIT := by
  rw [handler_got_ip]
  refine ⟨?_, ?_, ?_, ?_⟩
  · rfl
  · rw [flagRaised_connected]
    simp [xEventGroupSetBits, WIFI_CONNECTED_BIT, Nat.testBit_or, testBit_connected_bit]
  · simp [connectAttempts]
  · rw [flagRaised_fail, flagRaised_fail]
    simp [xEventGroupSetBits, WIFI_CONNECTED_BIT, Nat.testBit_or, testBit_connected_bit]

theorem connectAttempts_append (a b : List Effect) :
    connectAttempts (a ++ b) = connectAttempts a + connectAttempts b := by
  simp [connectAttempts]

theorem event_eq_of_fields (ev : Event) (b : EventBase) (i : Int)
    (h : ev.event_base = b ∧ ev.event_id = i) : ev = ⟨b, i⟩ := by
  cases ev
  simp_all

/-- One handler step with the budget exhausted, for an event that is neither
station start nor got-IP: no connect attempt, counter untouched, and the
bits either untouched or with the fail bit or-ed in. -/
theorem handler_exhausted_step (st : WifiState) (ev : Event)
    (hn : MAX_RETRY ≤ st.s_retry_num) (hs : ev ≠ evStaStart) (hg : ev ≠ evGotIp) :
    connectAttempts (wifi_event_handler st ev).2 = 0 ∧
    (wifi_event_handler st ev).1.s_retry_num = st.s_retry_num ∧
    ((wifi_event_handler st ev).1.bits = st.bits ∨
      (wifi_event_handler st ev).1.bits = xEventGroupSetBits st.bits WIFI_FAIL_BIT) := by
  have h2 : ¬ st.s_retry_num < MAX_RETRY := not_lt.mpr hn
  unfold wifi_event_handler
  by_cases c1 : ev.event_base = EventBase.WIFI_EVENT ∧ ev.event_id = WIFI_EVENT_STA_START
  · exact absurd (event_eq_of_fields ev _ _ c1) hs
  · rw [if_neg c1]
    by_cases c2 : ev.event_base = EventBase.WIFI_EVENT ∧
        ev.event_id = WIFI_EVENT_STA_DISCONNECTED
    · rw [if_pos c2, if_neg h2]
      simp [connectAttempts]
    · rw [if_neg c2]
      by_cases c3 : ev.event_base = EventBase.IP_EVENT ∧ ev.event_id = IP_EVENT_STA_GOT_IP
      · exact absurd (event_eq_of_fields ev _ _ c3) hg
      · rw [if_neg c3]
        simp [connectAttempts]

theorem fail_flag_kept (b : Nat) (h : flagRaised b WIFI_FAIL_BIT = true) (b2 : Nat)
    (hb : b2 = b ∨ b2 = xEventGroupSetBits b WIFI_FAIL_BIT) :
    flagRaised b2 WIFI_FAIL_BIT = true := by
  rcases hb with rfl | rfl
  · exact h
  · rw [flagRaised_fail]
    simp [xEventGroupSetBits, WIFI_FAIL_BIT, Nat.testBit_or, testBit_fail_bit]

/-- C10 (as stated, refuted): the boot sequence station start plus six
disconnects ends in the Failed state (`s_retry_num = 5`, only the fail bit
set); from that state a further station-start event makes the handler call
`esp_wifi_connect()`, and so does a disconnect that follows a got-IP event. -/
theorem C10_connect_after_failed :
    (wifi_run wifiBoot (evStaStart :: List.replicate 6 evDisconnected)).1
      = { s_retry_num := 5, bits := 2 } ∧
    flagRaised 2 WIFI_FAIL_BIT = true ∧
    connectAttempts (wifi_run { s_retry_num := 5, bits := 2 } [evStaStart]).2 = 1 ∧
    connectAttempts (wifi_run { s_retry_num := 5, bits := 2 } [evGotIp, evDisconnected]).2 = 1 := by
  refine ⟨?_, ?_, ?_, ?_⟩ <;> decide

/-- C10 (amended): once the fail flag is raised with the retry counter at
`MAX_RETRY` or more, every sequence of events that contains neither
`WIFI_EVENT_STA_START` nor `IP_EVENT_STA_GOT_IP` makes the handler issue no
connect attempt; the counter keeps its value and the fail flag stays raised. -/
theorem C10_no_connect_while_exhausted (evs : List Event) (st : WifiState)
    (hf : flagRaised st.bits WIFI_FAIL_BIT = true)
    (hn : MAX_RETRY ≤ st.s_retry_num)
    (hev : ∀ ev ∈ evs, ev ≠ evStaStart ∧ ev ≠ evGotIp) :
    connectAttempts (wifi_run st evs).2 = 0 ∧
    (wifi_run st evs).1.s_retry_num = st.s_retry_num ∧
    flagRaised (wifi_run st evs).1.bits WIFI_FAIL_BIT = true := by
  induction evs generalizing st with
  | nil => exact ⟨rfl, rfl, hf⟩
  | cons ev rest ih =>
    have hhead := hev ev (List.mem_cons_self ev rest)
    obtain ⟨k0, kn, kb⟩ := handler_exhausted_step st ev hn hhead.1 hhead.2
    have hf2 := fail_flag_kept st.bits hf _ kb
    have hn2 : MAX_RETRY ≤ (wifi_event_handler st ev).1.s_retry_num := by
      rw [kn]
      exact hn
    obtain ⟨r0, rn, rb⟩ := ih (wifi_event_handler st ev).1 hf2 hn2
      (fun e he => hev e (List.mem_cons_of_mem ev he))
    refine ⟨?_, ?_, ?_⟩
    · show connectAttempts ((wifi_event_handler st ev).2 ++
        (wifi_run (wifi_event_handler st ev).1 rest).2) = 0
      rw [connectAttempts_append, k0, r0]
    · show (wifi_run (wifi_event_handler st ev).1 rest).1.s_retry_num = st.s_retry_num
      rw [rn, kn]
    · exact rb

/-- C10 (amended) from the Failed state reached at boot, for three further
disconnects and an unrelated WiFi event. -/
theorem C10_no_connect_while_exhausted_witness :
    connectAttempts (wifi_run { s_retry_num := 5, bits := 2 }
      [evDisconnected, ⟨EventBase.WIFI_EVENT, 3⟩, evDisconnected, evDisconnected]).2 = 0 :=
  (C10_no_connect_while_exhausted
    [evDisconnected, ⟨EventBase.WIFI_EVENT, 3⟩, evDisconnected, evDisconnected]
    { s_retry_num := 5, bits := 2 } (by decide) (by decide) (by decide)).1

/-! ## Theorems: C strings -/

theorem startsWith_iff (hay needle : List Char) :
    startsWith hay needle = true ↔ needle <+: hay := by
  induction hay generalizing needle with
  | nil =>
    cases needle with
    | nil => simp [startsWith]
    | cons n ns => simp [startsWith]
  | cons h hs ih =>
    cases needle with
    | nil => simp [startsWith]
    | cons n ns =>
      simp only [startsWith, Bool.and_eq_true, beq_iff_eq, ih, List.cons_prefix_cons]
      constructor
      · rintro ⟨rfl, hp⟩
        exact ⟨rfl, hp⟩
      · rintro ⟨rfl, hp⟩
        exact ⟨rfl, hp⟩

/-- `strstr` finds an occurrence exactly when the needle is a contiguous
sublist of the haystack. -/
theorem strstr_isSome_iff (hay needle : List Char) :
    (strstr hay needle).isSome = true ↔ needle <:+: hay := by
  induction hay with
  | nil =>
    unfold strstr
    by_cases c : startsWith [] needle = true
    · rw [if_pos c]
      have hp := (startsWith_iff [] needle).mp c
      simp [List.IsPrefix.isInfix hp]
    · rw [if_neg c]
      have hp : ¬ needle <+: [] := fun hp => c ((startsWith_iff [] needle).mpr hp)
      simp only [Option.isSome_none, Bool.false_eq_true, false_iff]
      intro hin
      apply hp
      rw [List.infix_nil] at hin
      rw [hin]
  | cons h hs ih =>
    unfold strstr
    by_cases c : startsWith (h :: hs) needle = true
    · rw [if_pos c]
      have hp := (startsWith_iff (h :: hs) needle).mp c
      simp [List.IsPrefix.isInfix hp]
    · rw [if_neg c]
      have hp : ¬ needle <+: h :: hs := fun hp => c ((startsWith_iff _ needle).mpr hp)
      rw [List.infix_cons_iff, Option.isSome_map', ih]
      constructor
      · intro hin
        exact Or.inr hin
      · rintro (hin | hin)
        · exact absurd hin hp
        · exact hin

theorem cstr_append_nul (l : List Char) : cstr (l ++ [NUL]) = cstr l := by
  induction l with
  | nil => simp [cstr, List.takeWhile]
  | cons a t ih =>
    unfold cstr at ih ⊢
    by_cases c : (a != NUL) = true
    · simp only [List.cons_append, List.takeWhile_cons, c, if_true, ih]
    · simp only [List.cons_append, List.takeWhile_cons, c]
      simp

theorem cstr_within (l : List Char) : cstr l <:+: l := by
  unfold cstr
  exact (List.takeWhile_prefix _).isInfix

/-! ## Theorems: LED endpoint -/

/-- A successful read of 1 to 99 bytes: what `led_handler` does. -/
theorem led_handler_data (w : LedWorld) (bytes : List Char)
    (h1 : 1 ≤ bytes.length) (h99 : bytes.length ≤ 99) :
    led_handler w (Recv.data bytes) =
      some ((led_set_state w (led_new_state (bytes ++ [NUL]))).1,
        [Effect.httpd_req_recv CONTENT_SIZE]
          ++ (led_set_state w (led_new_state (bytes ++ [NUL]))).2
          ++ [Effect.httpd_resp_set_type "application/json",
              Effect.httpd_resp_send
                ((snprintf RESPONSE_SIZE
                    (led_response_text (led_new_state (bytes ++ [NUL])))).take
                  (strlen (snprintf RESPONSE_SIZE
                    (led_response_text (led_new_state (bytes ++ [NUL]))))))
                (strlen (snprintf RESPONSE_SIZE
                    (led_response_text (led_new_state (bytes ++ [NUL])))))],
        ESP_OK) := by
  have hpos : ¬ ((bytes.length : Int) ≤ 0) := by omega
  have hlt : bytes.length < CONTENT_SIZE := by
    show bytes.length < 100
    omega
  simp only [led_handler, Recv.ret, Recv.stored, hpos, if_false, Int.toNat_ofNat, hlt, if_true,
    List.take_length]

theorem led_new_state_iff (bytes : List Char) :
    led_new_state (bytes ++ [NUL]) = true ↔
      (needleTrue <:+: cstr bytes ∨ needleTrueSpace <:+: cstr bytes) := by
  unfold led_new_state
  rw [cstr_append_nul, Bool.or_eq_true, strstr_isSome_iff, strstr_isSome_iff]

/-- C4 (as stated, refuted): the 15 received bytes `\0{"state":true}` contain
the literal substring `"state":true`, yet `led_handler` sets the LED off,
because `strstr` reads `content` only up to its first zero byte. -/
theorem C4_marker_after_nul_ignored :
    needleTrue <:+: bodyNulThenTrue ∧
    bodyNulThenTrue.length = 15 ∧
    (led_handler ledOn (Recv.data bodyNulThenTrue)).map (fun x => x.1) = some ledOff := by
  refine ⟨?_, ?_, ?_⟩ <;> decide

/-- C4 (amended): for every successfully received body of 1 to 99 bytes,
`led_handler` returns `ESP_OK` and the LED is set on (cached flag true, pin
level 1) if and only if the received bytes before the first zero byte contain
`"state":true` or `"state": true`; otherwise it is set off (flag false, pin
level 0).  In particular a body containing neither marker sets the LED off. -/
theorem C4_led_truth_test (w : LedWorld) (bytes : List Char)
    (h1 : 1 ≤ bytes.length) (h99 : bytes.length ≤ 99) :
    ∃ w2 tr, led_handler w (Recv.data bytes) = some (w2, tr, ESP_OK) ∧
      (w2.led_state = true ↔
        (needleTrue <:+: cstr bytes ∨ needleTrueSpace <:+: cstr bytes)) ∧
      w2.pin_level = (if w2.led_state then 1 else 0) ∧
      (¬ needleTrue <:+: bytes → ¬ needleTrueSpace <:+: bytes → w2.led_state = false) := by
  refine ⟨_, _, led_handler_data w bytes h1 h99, ?_, ?_, ?_⟩
  · exact led_new_state_iff bytes
  · rfl
  · intro n1 n2
    show led_new_state (bytes ++ [NUL]) = false
    rw [← Bool.not_eq_true, led_new_state_iff]
    rintro (hin | hin)
    · exact n1 (hin.trans (cstr_within bytes))
    · exact n2 (hin.trans (cstr_within bytes))

/-- C4 (amended) at the body `{"state": true}`: the LED is set on. -/
theorem C4_led_truth_test_witness :
    ∃ w2 tr, led_handler ledOff (Recv.data bodyTrueSpace) = some (w2, tr, ESP_OK) ∧
      w2.led_state = true ∧ w2.pin_level = 1 := by
  obtain ⟨w2, tr, h, hiff, hpin, _⟩ :=
    C4_led_truth_test ledOff bodyTrueSpace (by decide) (by decide)
  have hon : w2.led_state = true := hiff.mpr (Or.inr (by decide))
  refine ⟨w2, tr, h, hon, ?_⟩
  rw [hpin, hon]
  rfl

/-- The bodies named by the specification: `{"state":true}` and
`{"state": true}` switch the LED on, `{"state":false}` switches it off. -/
theorem led_handler_named_bodies :
    (led_handler ledOff (Recv.data bodyTrue)).map (fun x => x.1) = some ledOn ∧
    (led_handler ledOff (Recv.data bodyTrueSpace)).map (fun x => x.1) = some ledOn ∧
    (led_handler ledOn (Recv.data bodyFalse)).map (fun x => x.1) = some ledOff := by
  refine ⟨?_, ?_, ?_⟩ <;> decide

/-- C5 (as stated, refuted): when `httpd_req_recv` returns 0 (or -1), the
handler returns `ESP_FAIL` with the LED untouched but makes no call that sends
a response. -/
theorem C5_no_response_unless_timeout :
    led_handler ledOn (Recv.error 0)
      = some (ledOn, [Effect.httpd_req_recv CONTENT_SIZE], ESP_FAIL) ∧
    led_handler ledOn (Recv.error (-1))
      = some (ledOn, [Effect.httpd_req_recv CONTENT_SIZE], ESP_FAIL) ∧
    [Effect.httpd_req_recv CONTENT_SIZE].any isResponse = false := by
  refine ⟨?_, ?_, ?_⟩ <;> decide

/-- C5 (amended): for every receive result `ret ≤ 0`, `led_handler` returns
`ESP_FAIL` and leaves the cached LED flag and the pin level unchanged
(`led_set_state` is not called); after the receive call it sends the 408
response when `ret` is `HTTPD_SOCK_ERR_TIMEOUT` and makes no further call
otherwise. -/
theorem C5_failed_read (w : LedWorld) (r : Recv) (h : r.ret ≤ 0) :
    led_handler w r =
      some (w,
        Effect.httpd_req_recv CONTENT_SIZE ::
          (if r.ret = HTTPD_SOCK_ERR_TIMEOUT then [Effect.httpd_resp_send_408] else []),
        ESP_FAIL) := by
  unfold led_handler
  by_cases c : r.ret = HTTPD_SOCK_ERR_TIMEOUT
  · simp only [if_pos h, if_pos c]
  · simp only [if_pos h, if_neg c]

/-- C5 (amended) at the timeout code: the 408 response is sent and the LED
stays on. -/
theorem C5_failed_read_witness :
    led_handler ledOn (Recv.error HTTPD_SOCK_ERR_TIMEOUT) =
      some (ledOn, [Effect.httpd_req_recv CONTENT_SIZE, Effect.httpd_resp_send_408], ESP_FAIL) :=
  C5_failed_read ledOn (Recv.error HTTPD_SOCK_ERR_TIMEOUT) (by decide)

/-- The response text is one of the two documents of the specification and
fits `char response[50]` with its terminator. -/
theorem led_response_text_eq :
    led_response_text true = "\x7b\"status\":\"ok\",\"led_state\":true\x7d".toList ∧
    led_response_text false = "\x7b\"status\":\"ok\",\"led_state\":false\x7d".toList ∧
    (led_response_text true).length = 32 ∧ (led_response_text false).length = 33 := by
  refine ⟨?_, ?_, ?_, ?_⟩ <;> decide

theorem led_response_sent (b : Bool) :
    (snprintf RESPONSE_SIZE (led_response_text b)).take
      (strlen (snprintf RESPONSE_SIZE (led_response_text b))) = led_response_text b := by
  cases b <;> decide

/-- For every successfully received body of 1 to 99 bytes the body passed to
`httpd_resp_send` is the untruncated response text for the new value of the
cached LED flag. -/
theorem led_handler_response (w : LedWorld) (bytes : List Char)
    (h1 : 1 ≤ bytes.length) (h99 : bytes.length ≤ 99) :
    ∃ w2 tr, led_handler w (Recv.data bytes) = some (w2, tr, ESP_OK) ∧
      sentBody tr = some (led_response_text w2.led_state) := by
  refine ⟨_, _, led_handler_data w bytes h1 h99, ?_⟩
  simp only [led_set_state, sentBody, List.cons_append, List.nil_append, List.append_nil,
    led_response_sent]

/-- A successful read of 1 to 99 bytes: `led_handler` is its receive call
followed by the part after the terminator store. -/
theorem led_handler_data_tail (w : LedWorld) (bytes : List Char)
    (h1 : 1 ≤ bytes.length) (h99 : bytes.length ≤ 99) :
    led_handler w (Recv.data bytes) =
      some ((led_handler_tail w (bytes ++ [NUL])).1,
        Effect.httpd_req_recv CONTENT_SIZE :: (led_handler_tail w (bytes ++ [NUL])).2.1,
        ESP_OK) := by
  rw [led_handler_data w bytes h1 h99]
  rfl

/-- C6: for every received body, the part of `led_handler` that builds and
sends the response passes to `httpd_resp_send` exactly
`{"status":"ok","led_state":true}` when the cached LED flag is true after the
request and exactly `{"status":"ok","led_state":false}` when it is false;
`char response[50]` holds the whole text and its terminator, so nothing is
truncated; the handler returns `ESP_OK`; and for every successful read of 1
to 99 bytes this is the response of `led_handler` itself. -/
theorem C6_led_response (w : LedWorld) (bytes : List Char) :
    sentBody (led_handler_tail w (bytes ++ [NUL])).2.1 =
      some (if (led_handler_tail w (bytes ++ [NUL])).1.led_state
        then "\x7b\"status\":\"ok\",\"led_state\":true\x7d".toList
        else "\x7b\"status\":\"ok\",\"led_state\":false\x7d".toList) ∧
    snprintf RESPONSE_SIZE
        (led_response_text (led_handler_tail w (bytes ++ [NUL])).1.led_state)
      = led_response_text (led_handler_tail w (bytes ++ [NUL])).1.led_state ++ [NUL] ∧
    (led_response_text (led_handler_tail w (bytes ++ [NUL])).1.led_state).length + 1
      ≤ RESPONSE_SIZE ∧
    (led_handler_tail w (bytes ++ [NUL])).2.2 = ESP_OK ∧
    (1 ≤ bytes.length → bytes.length ≤ 99 →
      led_handler w (Recv.data bytes) =
        some ((led_handler_tail w (bytes ++ [NUL])).1,
          Effect.httpd_req_recv CONTENT_SIZE :: (led_handler_tail w (bytes ++ [NUL])).2.1,
          ESP_OK)) := by
  have hstate : (led_handler_tail w (bytes ++ [NUL])).1.led_state
      = led_new_state (bytes ++ [NUL]) := rfl
  have hsent : sentBody (led_handler_tail w (bytes ++ [NUL])).2.1
      = some (led_response_text (led_new_state (bytes ++ [NUL]))) := by
    simp only [led_handler_tail, led_set_state, sentBody, List.cons_append, List.nil_append,
      led_response_sent]
  rw [hstate, hsent]
  refine ⟨?_, ?_, ?_, rfl, led_handler_data_tail w bytes⟩
  · cases led_new_state (bytes ++ [NUL]) <;> decide
  · cases led_new_state (bytes ++ [NUL]) <;> decide
  · cases led_new_state (bytes ++ [NUL]) <;> decide

/-- C6 at the body `{"state":true}` with the LED off before: the handler
switches the LED on and sends `{"status":"ok","led_state":true}`. -/
theorem C6_led_response_witness :
    led_handler ledOff (Recv.data bodyTrue) =
      some (ledOn,
        [Effect.httpd_req_recv CONTENT_SIZE,
         Effect.gpio_set_level LED_PIN 1,
         Effect.log "LED ENCENDIDO",
         Effect.httpd_resp_set_type "application/json",
         Effect.httpd_resp_send "\x7b\"status\":\"ok\",\"led_state\":true\x7d".toList 32],
        ESP_OK) :=
  ((C6_led_response ledOff bodyTrue).2.2.2.2 (by decide) (by decide)).trans (by decide)

/-- The 100-byte body: the read fills `content`, so the terminator store is
outside the array and `led_handler` has no defined result; the part after the
store, reading the 100 bytes and the terminator behind them, switches the LED
on and sends `{"status":"ok","led_state":true}`. -/
theorem led_handler_body100 :
    body100.length = CONTENT_SIZE ∧
    needleTrue <:+: body100 ∧
    led_handler ledOff (Recv.data body100) = none ∧
    (led_handler_tail ledOff (body100 ++ [NUL])).1 = ledOn ∧
    sentBody (led_handler_tail ledOff (body100 ++ [NUL])).2.1
      = some "\x7b\"status\":\"ok\",\"led_state\":true\x7d".toList := by
  refine ⟨?_, ?_, ?_, ?_, ?_⟩ <;> decide

/-! ## Theorems: uptime text -/

set_option maxRecDepth 100000 in
theorem zeroPad_two_digits : ∀ n < 100, zeroPad 2 (fmt_u n) = twoDigits n := by
  decide

theorem fmt_02d_natCast (n : Nat) : fmt_02d (n : Int) = zeroPad 2 (fmt_u n) := by
  have h : ¬ ((n : Int) < 0) := by omega
  simp only [fmt_02d, h, if_false, Int.toNat_ofNat]

theorem uptime_formatted_natCast (s : Nat) :
    uptime_formatted (s : Int) =
      zeroPad 2 (fmt_u (s / 3600)) ++ ":".toList ++ zeroPad 2 (fmt_u (s % 3600 / 60))
        ++ ":".toList ++ zeroPad 2 (fmt_u (s % 60)) := by
  have e1 : (s : Int).tdiv 3600 = ((s / 3600 : Nat) : Int) := (Int.ofNat_tdiv s 3600).symm
  have e2 : (s : Int).tmod 3600 = ((s % 3600 : Nat) : Int) := (Int.ofNat_tmod s 3600).symm
  have e3 : ((s % 3600 : Nat) : Int).tdiv 60 = ((s % 3600 / 60 : Nat) : Int) :=
    (Int.ofNat_tdiv (s % 3600) 60).symm
  have e4 : (s : Int).tmod 60 = ((s % 60 : Nat) : Int) := (Int.ofNat_tmod s 60).symm
  simp only [uptime_formatted, e1, e2, e3, e4, fmt_02d_natCast]

/-- The C `int uptime_seconds` holds the whole seconds of the timer value as
long as they are below `2 ^ 31`. -/
theorem uptime_seconds_of_natCast (us : Nat) (h : us / 1000000 < 2 ^ 31) :
    uptime_seconds_of (us : Int) = ((us / 1000000 : Nat) : Int) := by
  have e1 : (us : Int).tdiv 1000000 = ((us / 1000000 : Nat) : Int) :=
    (Int.ofNat_tdiv us 1000000).symm
  unfold uptime_seconds_of toInt32
  rw [e1]
  omega

/-- C8 (as stated, refuted): after 360000 seconds (100 hours) the text is
`100:00:00`, nine chars whose hour field has three digits, not the two-digit
form. -/
theorem C8_hundred_hours_three_digits :
    (360000 : Int) < 2 ^ 31 ∧
    uptime_seconds_of 360000000000 = 360000 ∧
    uptime_formatted 360000 = "100:00:00".toList ∧
    (uptime_formatted 360000).length = 9 ∧
    uptime_formatted 360000 ≠ specUptimeFormat 360000 := by
  refine ⟨?_, ?_, ?_, ?_, ?_⟩ <;> decide

/-- C8 (amended): for every timer value of `us` microseconds whose whole
seconds `s` are below `2 ^ 31`, the text is `HH:MM:SS` with `HH = s / 3600`
printed by `%02d` (decimal, padded with zeros to at least two digits),
`MM = (s mod 3600) / 60` and `SS = s mod 60` printed as zero-padded two-digit
decimals; while `s < 360000` the hours are two digits as well, so the text is
the one the specification words; and `HH * 3600 + MM * 60 + SS = s` with
`MM < 60` and `SS < 60`. -/
theorem C8_uptime_format (us s : Nat) (hus : us / 1000000 = s) (hs : s < 2 ^ 31) :
    uptime_formatted (uptime_seconds_of (us : Int)) =
      fmt_02d ((s / 3600 : Nat) : Int) ++ ":".toList ++ twoDigits (s % 3600 / 60)
        ++ ":".toList ++ twoDigits (s % 60) ∧
    (s < 360000 → uptime_formatted (uptime_seconds_of (us : Int)) = specUptimeFormat s) ∧
    s / 3600 * 3600 + s % 3600 / 60 * 60 + s % 60 = s ∧
    s % 3600 / 60 < 60 ∧ s % 60 < 60 := by
  have hsec : uptime_seconds_of (us : Int) = (s : Int) := by
    rw [uptime_seconds_of_natCast us (by rw [hus]; exact hs), hus]
  have hm : s % 3600 / 60 < 100 := by omega
  have hsd : s % 60 < 100 := by omega
  rw [hsec, uptime_formatted_natCast, zeroPad_two_digits _ hm, zeroPad_two_digits _ hsd,
    fmt_02d_natCast]
  refine ⟨rfl, ?_, ?_, ?_, ?_⟩
  · intro hlt
    have hh : s / 3600 < 100 := by omega
    rw [zeroPad_two_digits _ hh]
    rfl
  · omega
  · omega
  · omega

/-- C8 (amended) at a timer value of 3661.25 seconds: the text is `01:01:01`. -/
theorem C8_uptime_format_witness :
    uptime_formatted (uptime_seconds_of 3661250000) = "01:01:01".toList ∧
    3661 / 3600 * 3600 + 3661 % 3600 / 60 * 60 + 3661 % 60 = 3661 := by
  have h := C8_uptime_format 3661250000 3661 (by decide) (by decide)
  exact ⟨(h.2.1 (by decide)).trans (by decide), h.2.2.1⟩

/-- The two uptime examples of the specification. -/
theorem uptime_formatted_examples :
    uptime_formatted 3661 = "01:01:01".toList ∧ uptime_formatted 59 = "00:00:59".toList := by
  refine ⟨?_, ?_⟩ <;> decide

/-! ## Theorems: restart endpoint -/

/-- C9: `restart_handler` makes exactly three calls, in this order: it sends
the body `{"status":"restarting"}`, delays for `1000 / portTICK_PERIOD_MS`
ticks, which is 1000 ms whenever the tick period divides 1000 ms, and
restarts the device; the restart is on every path, comes after the send, and
the handler never returns. -/
theorem C9_restart_order (portTICK_PERIOD_MS : Nat) (hdiv : portTICK_PERIOD_MS ∣ 1000) :
    (restart_handler portTICK_PERIOD_MS).1 =
      [Effect.httpd_resp_sendstr "\x7b\"status\":\"restarting\"\x7d",
       Effect.vTaskDelay (1000 / portTICK_PERIOD_MS),
       Effect.esp_restart] ∧
    1000 / portTICK_PERIOD_MS * portTICK_PERIOD_MS = 1000 ∧
    (restart_handler portTICK_PERIOD_MS).1.indexOf
        (Effect.httpd_resp_sendstr "\x7b\"status\":\"restarting\"\x7d")
      < (restart_handler portTICK_PERIOD_MS).1.indexOf Effect.esp_restart ∧
    (restart_handler portTICK_PERIOD_MS).1.count Effect.esp_restart = 1 ∧
    (restart_handler portTICK_PERIOD_MS).2 = none := by
  refine ⟨rfl, Nat.div_mul_cancel hdiv, ?_, ?_, rfl⟩
  · simp [restart_handler, List.indexOf_cons]
  · simp [restart_handler]

/-- C9 at the default tick period of 10 ms: the delay is 100 ticks. -/
theorem C9_restart_order_witness :
    (restart_handler 10).1 =
      [Effect.httpd_resp_sendstr "\x7b\"status\":\"restarting\"\x7d",
       Effect.vTaskDelay 100,
       Effect.esp_restart] :=
  (C9_restart_order 10 (by decide)).1

/-! ## Theorems: printf conversions -/

theorem digitChar_ne_nul : ∀ k < 10, Nat.digitChar k ≠ NUL := by decide

theorem toDigitsCore_no_nul (fuel : Nat) : ∀ (n : Nat) (ds : List Char),
    NUL ∉ ds → NUL ∉ Nat.toDigitsCore 10 fuel n ds := by
  induction fuel with
  | zero =>
    intro n ds h
    simpa [Nat.toDigitsCore] using h
  | succ f ih =>
    intro n ds h
    have hd : NUL ∉ Nat.digitChar (n % 10) :: ds := by
      intro hm
      rcases List.mem_cons.mp hm with e | e
      · exact digitChar_ne_nul (n % 10) (Nat.mod_lt _ (by decide)) e.symm
      · exact h e
    unfold Nat.toDigitsCore
    by_cases c : n / 10 = 0
    · simp only [c, if_true]
      exact hd
    · simp only [c, if_false]
      exact ih _ _ hd

theorem fmt_u_no_nul (n : Nat) : NUL ∉ fmt_u n := by
  unfold fmt_u Nat.repr Nat.toDigits
  exact toDigitsCore_no_nul _ _ _ (by simp)

theorem fmt_u_length (n e : Nat) (he : 0 < e) (h : n < 10 ^ e) : (fmt_u n).length ≤ e :=
  Nat.repr_length n e he h

theorem fmt_d_no_nul (n : Int) : NUL ∉ fmt_d n := by
  unfold fmt_d
  split
  · intro hm
    rcases List.mem_cons.mp hm with e | e
    · revert e
      decide
    · exact fmt_u_no_nul _ e
  · exact fmt_u_no_nul _

theorem fmt_d_length (n : Int) (e : Nat) (he : 0 < e) (h : n.natAbs < 10 ^ e) :
    (fmt_d n).length ≤ e + 1 := by
  unfold fmt_d
  split
  · have := fmt_u_length n.natAbs e he h
    simp only [List.length_cons]
    omega
  · have h2 : n.toNat < 10 ^ e := by omega
    have := fmt_u_length n.toNat e he h2
    omega

theorem zeroPad_no_nul (w : Nat) (l : List Char) (h : NUL ∉ l) : NUL ∉ zeroPad w l := by
  unfold zeroPad
  intro hm
  rcases List.mem_append.mp hm with e | e
  · have := List.eq_of_mem_replicate e
    revert this
    decide
  · exact h e

theorem zeroPad_length (w : Nat) (l : List Char) : (zeroPad w l).length = max w l.length := by
  unfold zeroPad
  simp only [List.length_append, List.length_replicate]
  omega

theorem fmt_02d_no_nul (n : Int) : NUL ∉ fmt_02d n := by
  unfold fmt_02d
  split
  · intro hm
    rcases List.mem_cons.mp hm with e | e
    · revert e
      decide
    · exact zeroPad_no_nul _ _ (fmt_u_no_nul _) e
  · exact zeroPad_no_nul _ _ (fmt_u_no_nul _)

theorem fmt_02d_length (n : Int) (e : Nat) (he : 2 ≤ e) (h : n.natAbs < 10 ^ e) :
    (fmt_02d n).length ≤ e + 1 := by
  unfold fmt_02d
  split
  · have := fmt_u_length n.natAbs e (by omega) h
    simp only [List.length_cons, zeroPad_length]
    omega
  · have h2 : n.toNat < 10 ^ e := by omega
    have := fmt_u_length n.toNat e (by omega) h2
    simp only [zeroPad_length]
    omega

theorem natAbs_tmod_le (a : Int) (b : Nat) : (a.tmod b).natAbs ≤ a.natAbs := by
  cases a with
  | ofNat m =>
    show ((m : Int).tmod b).natAbs ≤ m
    rw [← Int.ofNat_tmod]
    exact Nat.mod_le m b
  | negSucc m =>
    show (-((m + 1 : Nat) % b : Nat) : Int).natAbs ≤ m + 1
    rw [Int.natAbs_neg]
    exact Nat.mod_le _ _

theorem natAbs_tdiv_le (a b : Int) : (a.tdiv b).natAbs ≤ a.natAbs := by
  rw [Int.natAbs_tdiv]
  exact Nat.div_le_self _ _

theorem toInt32_natAbs (x : Int) : (toInt32 x).natAbs < 10 ^ 10 := by
  unfold toInt32
  omega

theorem uptime_formatted_no_nul (s : Int) : NUL ∉ uptime_formatted s := by
  unfold uptime_formatted
  simp only [List.mem_append, not_or]
  exact ⟨⟨⟨⟨fmt_02d_no_nul _, by decide⟩, fmt_02d_no_nul _⟩, by decide⟩, fmt_02d_no_nul _⟩

theorem uptime_formatted_length (s : Int) (h : s.natAbs < 10 ^ 10) :
    (uptime_formatted s).length ≤ 35 := by
  have hh : (s.tdiv 3600).natAbs < 10 ^ 10 := lt_of_le_of_lt (natAbs_tdiv_le s 3600) h
  have hm : ((s.tmod 3600).tdiv 60).natAbs < 10 ^ 10 :=
    lt_of_le_of_lt (natAbs_tdiv_le _ 60)
      (lt_of_le_of_lt (natAbs_tmod_le s 3600) h)
  have hs : (s.tmod 60).natAbs < 10 ^ 10 := lt_of_le_of_lt (natAbs_tmod_le s 60) h
  have l1 := fmt_02d_length _ 10 (by decide) hh
  have l2 := fmt_02d_length _ 10 (by decide) hm
  have l3 := fmt_02d_length _ 10 (by decide) hs
  unfold uptime_formatted
  simp only [List.length_append, String.toList, List.length_cons, List.length_nil]
  omega

theorem fmt_ip_no_nul (a : Nat × Nat × Nat × Nat) : NUL ∉ fmt_ip a := by
  unfold fmt_ip
  simp only [List.mem_append, not_or]
  exact ⟨⟨⟨⟨⟨⟨fmt_d_no_nul _, by decide⟩, fmt_d_no_nul _⟩, by decide⟩, fmt_d_no_nul _⟩,
    by decide⟩, fmt_d_no_nul _⟩

theorem fmt_ip_length (a : Nat × Nat × Nat × Nat)
    (h : a.1 < 256 ∧ a.2.1 < 256 ∧ a.2.2.1 < 256 ∧ a.2.2.2 < 256) :
    (fmt_ip a).length ≤ 19 := by
  obtain ⟨h1, h2, h3, h4⟩ := h
  have l1 := fmt_d_length (a.1 : Int) 3 (by decide) (by simp only [Int.natAbs_ofNat]; omega)
  have l2 := fmt_d_length (a.2.1 : Int) 3 (by decide) (by simp only [Int.natAbs_ofNat]; omega)
  have l3 := fmt_d_length (a.2.2.1 : Int) 3 (by decide)
    (by simp only [Int.natAbs_ofNat]; omega)
  have l4 := fmt_d_length (a.2.2.2 : Int) 3 (by decide)
    (by simp only [Int.natAbs_ofNat]; omega)
  unfold fmt_ip
  simp only [List.length_append, String.toList, List.length_cons, List.length_nil]
  omega

theorem cstr_no_nul (l : List Char) : NUL ∉ cstr l := by
  intro hm
  have h := List.mem_takeWhile_imp hm
  simp at h

theorem cstr_of_no_nul (l : List Char) (h : NUL ∉ l) : cstr l = l := by
  unfold cstr
  rw [List.takeWhile_eq_self_iff]
  intro x hx
  have hne : x ≠ NUL := fun e => h (e ▸ hx)
  simpa using hne

/-- What `httpd_resp_send(req, buf, strlen(buf))` transmits after an
`snprintf` whose text fits the array and contains no zero byte: the text. -/
theorem snprintf_sent (size : Nat) (text : List Char)
    (hfit : text.length ≤ size - 1) (hn : NUL ∉ text) :
    (snprintf size text).take (strlen (snprintf size text)) = text := by
  unfold snprintf strlen
  rw [List.take_of_length_le hfit, cstr_append_nul, cstr_of_no_nul text hn]
  simp

/-! ## Theorems: status JSON -/

theorem json_led_no_nul (b : Bool) : NUL ∉ json_led b := by
  cases b <;> decide

theorem json_led_length (b : Bool) : (json_led b).length ≤ 38 := by
  cases b <;> decide

theorem json_head_no_nul (d : DeviceSnapshot) (hd : d.WellTyped) : NUL ∉ json_head d := by
  obtain ⟨_, _, _, ⟨_, ht⟩, _, _, _, _, _, _, _, ⟨_, hm⟩, _⟩ := hd
  unfold json_head
  simp only [List.mem_append, not_or]
  repeat' apply And.intro
  all_goals first
    | decide
    | with_reducible exact ht
    | with_reducible exact hm
    | with_reducible exact fmt_d_no_nul _
    | with_reducible exact fmt_u_no_nul _
    | with_reducible exact fmt_ip_no_nul _
    | with_reducible exact cstr_no_nul _
    | with_reducible exact uptime_formatted_no_nul _

theorem json_head_length (d : DeviceSnapshot) (hd : d.WellTyped) :
    (json_head d).length ≤ 985 := by
  obtain ⟨hc, hr, hf, ⟨ht, _⟩, hs, ⟨hr1, hr2⟩, hip, hgw, hnm, hfh, hmh, ⟨hm, _⟩, _⟩ := hd
  have l1 := fmt_d_length (d.cores : Int) 3 (by decide) (by simp only [Int.natAbs_ofNat]; omega)
  have l2 := fmt_d_length (d.revision : Int) 5 (by decide)
    (by simp only [Int.natAbs_ofNat]; omega)
  have l3 := fmt_u_length d.cpu_freq_mhz 10 (by decide) (by omega)
  have l4 := fmt_d_length d.rssi 3 (by decide) (by omega)
  have l5 := fmt_ip_length d.ip hip
  have l6 := fmt_ip_length d.gw hgw
  have l7 := fmt_ip_length d.netmask hnm
  have l8 := fmt_u_length d.free_heap 10 (by decide) (by omega)
  have l9 := fmt_u_length d.min_free_heap 10 (by decide) (by omega)
  have l10 := fmt_d_length (uptime_seconds_of d.uptime_us) 10 (by decide) (toInt32_natAbs _)
  have l11 := uptime_formatted_length (uptime_seconds_of d.uptime_us) (toInt32_natAbs _)
  unfold json_head
  simp only [List.length_append, String.toList, List.length_cons, List.length_nil]
  omega

/-- The complete formatted text fits `char json_buffer[1024]` with its
terminator, for every well-typed snapshot. -/
theorem json_text_fits (d : DeviceSnapshot) (hd : d.WellTyped) (b : Bool) :
    (json_head d ++ json_led b).length ≤ JSON_BUFFER_SIZE - 1 := by
  have h1 := json_head_length d hd
  have h2 := json_led_length b
  show (json_head d ++ json_led b).length ≤ 1023
  rw [List.length_append]
  omega

/-- C7: for every boolean `b` and every well-typed device snapshot, after
`led_set_state(b)` the body sent by `data_handler` (GET /api/data) is the
complete, untruncated text of `get_system_info_json`, which ends in the
object `"led": {"state": b}`: with blanks and line breaks removed the closing
part reads `"led":{"state":true}}` when `b` is true and
`"led":{"state":false}}` when `b` is false. -/
theorem C7_led_state_reported (d : DeviceSnapshot) (hd : d.WellTyped) (w : LedWorld) (b : Bool) :
    sentBody (data_handler d (led_set_state w b).1).1 = some (json_head d ++ json_led b) ∧
    compact (json_led b) =
      "\"led\":\x7b\"state\":".toList ++ (if b then "true" else "false").toList
        ++ "\x7d\x7d".toList ∧
    (compact (json_led b) <:+
      compact (cstr (get_system_info_json d (led_set_state w b).1 JSON_BUFFER_SIZE))) := by
  have hfit := json_text_fits d hd b
  have hn : NUL ∉ json_head d ++ json_led b := by
    simp only [List.mem_append, not_or]
    exact ⟨json_head_no_nul d hd, json_led_no_nul b⟩
  refine ⟨?_, ?_, ?_⟩
  · show some ((snprintf JSON_BUFFER_SIZE (json_head d ++ json_led b)).take
      (strlen (snprintf JSON_BUFFER_SIZE (json_head d ++ json_led b)))) = _
    rw [snprintf_sent _ _ hfit hn]
  · cases b <;> decide
  · show compact (json_led b) <:+
      compact (cstr (snprintf JSON_BUFFER_SIZE (json_head d ++ json_led b)))
    unfold snprintf
    rw [List.take_of_length_le hfit, cstr_append_nul, cstr_of_no_nul _ hn]
    unfold compact
    rw [List.filter_append]
    exact List.suffix_append _ _

/-- C7 at a sample snapshot with the LED switched on: the sent document
closes with `"led": {"state": true}`. -/
theorem C7_led_state_reported_witness :
    sentBody (data_handler sampleSnapshot (led_set_state ledOff true).1).1
      = some (json_head sampleSnapshot ++ json_led true) ∧
    compact (json_led true) = "\"led\":\x7b\"state\":true\x7d\x7d".toList := by
  have h := C7_led_state_reported sampleSnapshot (by decide) ledOff true
  exact ⟨h.1, h.2.1.trans (by decide)⟩

/-! ## Theorems: LED controller -/

theorem led_set_state_level (w : LedWorld) (b : Bool) :
    (led_set_state w b).1.led_state = b ∧
    (led_set_state w b).1.pin_level = (if b then 1 else 0) ∧
    (led_set_state w b).1.pin_config = w.pin_config ∧
    Effect.gpio_set_level LED_PIN (if b then 1 else 0) ∈ (led_set_state w b).2 := by
  refine ⟨rfl, rfl, rfl, ?_⟩
  simp [led_set_state]

/-- The pin level agrees with the cached flag: this holds after any
`led_set_state` call and is kept by further ones. -/
theorem led_run_level (bs : List Bool) : ∀ w : LedWorld,
    w.pin_level = (if w.led_state then 1 else 0) →
    (led_run w bs).pin_level = (if (led_run w bs).led_state then 1 else 0) := by
  induction bs with
  | nil =>
    intro w h
    exact h
  | cons b rest ih =>
    intro w _
    exact ih (led_set_state w b).1 rfl

theorem led_run_last (bs : List Bool) (b : Bool) (w : LedWorld) :
    (led_run w (bs ++ [b])).led_state = b := by
  induction bs generalizing w with
  | nil => rfl
  | cons c rest ih => exact ih (led_set_state w c).1

/-- C11: `led_init` leaves the cached LED state false and the pin level 0
(low); `led_set_state(b)` leaves the cached state equal to `b` and the pin
level 1 when `b` is true and 0 when `b` is false; hence after `led_init`
followed by any sequence of `led_set_state` calls the pin level is 1 (high)
exactly when the cached flag is true, and 0 otherwise. -/
theorem C11_led_level_matches_flag (w0 w : LedWorld) (b : Bool) (bs : List Bool) :
    (led_init w0).1.led_state = false ∧
    (led_init w0).1.pin_level = 0 ∧
    (led_set_state w b).1.led_state = b ∧
    (led_set_state w b).1.pin_level = (if b then 1 else 0) ∧
    ((led_run (led_init w0).1 bs).pin_level = 1 ↔
      (led_run (led_init w0).1 bs).led_state = true) ∧
    ((led_run (led_init w0).1 bs).pin_level = 0 ↔
      (led_run (led_init w0).1 bs).led_state = false) := by
  have h := led_run_level bs (led_init w0).1 rfl
  refine ⟨rfl, rfl, rfl, rfl, ?_, ?_⟩
  · rw [h]
    cases (led_run (led_init w0).1 bs).led_state <;> simp
  · rw [h]
    cases (led_run (led_init w0).1 bs).led_state <;> simp

/-- The LED after initialisation and the calls on, off, on: flag true, pin
level 1, pin configured as an output without pulls. -/
theorem led_run_example :
    led_run (led_init ledOn).1 [true, false, true] =
      { led_state := true, pin_level := 1,
        pin_config := some
          { intr_enabled := false, mode_output := true, pin_bit_mask := 2097152,
            pull_down_en := false, pull_up_en := false } } := by
  decide

/-! ## Theorems: receive limit of the LED endpoint -/

/-- Whatever the outcome of the read, `led_handler` has asked for
`sizeof(content)` bytes, the full size of the array. -/
theorem led_handler_requested_len (w : LedWorld) (r : Recv)
    (res : LedWorld × List Effect × Int) (h : led_handler w r = some res) :
    requestedLen res.2.1 = some CONTENT_SIZE := by
  dsimp only [led_handler] at h
  split at h
  · split at h
    · cases h
      rfl
    · cases h
      rfl
  · split at h
    · cases h
      rfl
    · cases h

/-- A read that fills the array makes the terminator store fall outside it. -/
theorem led_handler_full_read (w : LedWorld) (bytes : List Char)
    (h : bytes.length = CONTENT_SIZE) : led_handler w (Recv.data bytes) = none := by
  have hpos : ¬ ((bytes.length : Int) ≤ 0) := by
    rw [h]
    decide
  have hlt : ¬ (bytes.length < CONTENT_SIZE) := by omega
  simp only [led_handler, Recv.ret, hpos, if_false, Int.toNat_ofNat, hlt]

/-- C12 (code defect): `led_handler` asks the server for 100 bytes, the whole
of `char content[100]`, not for 99; a read of the requested maximum, here 100
letters `a`, is a successful read of `n = 100` bytes, and the terminator is
then stored at index 100, which is not inside the array. -/
theorem C12_receive_limit_is_buffer_size :
    (led_handler ledOff (Recv.data bodyTrue)).bind (fun x => requestedLen x.2.1) = some 100 ∧
    (led_handler ledOff (Recv.error 0)).bind (fun x => requestedLen x.2.1) = some 100 ∧
    (Recv.data bodyFull).ret = 100 ∧
    ¬ ((Recv.data bodyFull).ret.toNat < CONTENT_SIZE) ∧
    led_handler ledOn (Recv.data bodyFull) = none := by
  refine ⟨?_, ?_, ?_, ?_, ?_⟩ <;> decide

/-! ## Theorems: connection attempts of a failing boot -/

/-- From retry count `n ≤ 5`, `k` disconnects in a row: the counter climbs to
at most 5, one connect attempt is made per step of the climb, and the fail
bit is or-ed in by the first disconnect that finds the counter at 5. -/
theorem wifi_run_disconnects (k : Nat) : ∀ (n b : Nat), n ≤ 5 →
    (wifi_run { s_retry_num := (n : Int), bits := b } (List.replicate k evDisconnected)).1
      = { s_retry_num := ((min (n + k) 5 : Nat) : Int),
          bits := if 5 < n + k then xEventGroupSetBits b WIFI_FAIL_BIT else b } ∧
    connectAttempts
      (wifi_run { s_retry_num := (n : Int), bits := b } (List.replicate k evDisconnected)).2
      = min (n + k) 5 - n := by
  induction k with
  | zero =>
    intro n b hn
    have hif : ¬ (5 < n) := by omega
    simp [List.replicate, wifi_run, hif, hn, connectAttempts]
  | succ k ih =>
    intro n b hn
    simp only [List.replicate, wifi_run]
    by_cases c : n < 5
    · have hlt : (WifiState.mk (n : Int) b).s_retry_num < MAX_RETRY := by
        show (n : Int) < 5
        omega
      rw [handler_disconnected_lt _ hlt]
      obtain ⟨i1, i2⟩ := ih (n + 1) b (by omega)
      have hcast : ((n : Int) + 1) = ((n + 1 : Nat) : Int) := by omega
      simp only [hcast]
      rw [i1, connectAttempts_append, i2]
      have e1 : min (n + 1 + k) 5 = min (n + (k + 1)) 5 := by omega
      have e2 : (5 < n + 1 + k) ↔ (5 < n + (k + 1)) := by omega
      refine ⟨?_, ?_⟩
      · simp only [e1, e2]
      · simp only [connectAttempts, List.count_cons_self, List.count_cons_of_ne,
          List.count_nil, ne_eq, reduceCtorEq, not_false_eq_true]
        omega
    · have hn5 : n = 5 := by omega
      subst hn5
      have hge : MAX_RETRY ≤ (WifiState.mk ((5 : Nat) : Int) b).s_retry_num := by
        show (5 : Int) ≤ ((5 : Nat) : Int)
        omega
      rw [handler_disconnected_ge _ hge]
      obtain ⟨i1, i2⟩ := ih 5 (xEventGroupSetBits b WIFI_FAIL_BIT) (by omega)
      rw [i1, connectAttempts_append, i2]
      have e1 : min (5 + k) 5 = 5 := by omega
      have e2 : min (5 + (k + 1)) 5 = 5 := by omega
      have e3 : 5 < 5 + (k + 1) := by omega
      refine ⟨?_, ?_⟩
      · simp only [e1, e2, if_pos e3, setBits_idem, ite_self]
      · simp only [e1, e2, connectAttempts, List.count_cons_of_ne, List.count_nil, ne_eq,
          reduceCtorEq, not_false_eq_true]

theorem handler_sta_start (st : WifiState) :
    wifi_event_handler st evStaStart = (st, [Effect.esp_wifi_connect]) := by
  simp [wifi_event_handler, evStaStart]

/-- C13: from the boot state (counter 0, both flags clear), after a
`WIFI_EVENT_STA_START` event followed by `k` consecutive
`WIFI_EVENT_STA_DISCONNECTED` events the handler has issued exactly
`min k 5 + 1` connect attempts, the retry counter equals `min k 5`, the fail
flag is raised if and only if `k ≥ 6`, and the connected flag is still clear:
one initial attempt, five retries, Failed on the sixth disconnect. -/
theorem C13_attempts_of_failing_boot (k : Nat) :
    connectAttempts (wifi_run wifiBoot (bootEvents k)).2 = min k 5 + 1 ∧
    (wifi_run wifiBoot (bootEvents k)).1.s_retry_num = ((min k 5 : Nat) : Int) ∧
    (flagRaised (wifi_run wifiBoot (bootEvents k)).1.bits WIFI_FAIL_BIT = true ↔ 6 ≤ k) ∧
    flagRaised (wifi_run wifiBoot (bootEvents k)).1.bits WIFI_CONNECTED_BIT = false := by
  obtain ⟨h1, h2⟩ := wifi_run_disconnects k 0 0 (Nat.zero_le 5)
  have hboot : wifiBoot = { s_retry_num := ((0 : Nat) : Int), bits := 0 } := rfl
  have hrun : wifi_run wifiBoot (bootEvents k) =
      ((wifi_run { s_retry_num := ((0 : Nat) : Int), bits := 0 }
          (List.replicate k evDisconnected)).1,
        [Effect.esp_wifi_connect] ++
          (wifi_run { s_retry_num := ((0 : Nat) : Int), bits := 0 }
            (List.replicate k evDisconnected)).2) := by
    simp only [bootEvents, wifi_run, handler_sta_start, hboot]
  rw [hrun]
  simp only [connectAttempts_append, h1, h2, Nat.zero_add]
  refine ⟨?_, ?_, ?_, ?_⟩
  · simp only [connectAttempts, List.count_cons_self, List.count_nil]
    omega
  · trivial
  · by_cases c : 5 < k
    · rw [if_pos c]
      constructor
      · intro _
        omega
      · intro _
        decide
    · rw [if_neg c]
      constructor
      · intro h
        exact absurd h (by decide)
      · intro h
        omega
  · by_cases c : 5 < k
    · rw [if_pos c]
      decide
    · rw [if_neg c]
      decide

/-- The sixth disconnect of a failing boot: six connect attempts were made
during the first five disconnects, and the sixth only raises the fail flag. -/
theorem failing_boot_sixth_disconnect :
    connectAttempts (wifi_run wifiBoot (bootEvents 5)).2 = 6 ∧
    (wifi_run wifiBoot (bootEvents 5)).1 = { s_retry_num := 5, bits := 0 } ∧
    connectAttempts (wifi_run wifiBoot (bootEvents 6)).2 = 6 ∧
    (wifi_run wifiBoot (bootEvents 6)).1 = { s_retry_num := 5, bits := 2 } := by
  refine ⟨?_, ?_, ?_, ?_⟩ <;> decide

end Esp32Server
